import Mathlib

/-!
Shallow embedding of the gossip-glomers node runtime and workloads.

The repository holds two generations of the runtime side by side:
the older crate root in src/lib.rs (typed NodeId, Node.send_impl,
Node.reply returning Result, run with the typed decode on the accept
loop) and the newer runtime in src/node.rs plus src/message.rs
(string node ids in handler code, fire_and_forget, send_rpc with the
response_map correlation table). Both are embedded below, the newer
one under the bare names and the older one under names starting L.
The broadcast and counter workloads (src/bin/broadcast.rs,
src/bin/counter.rs) are written against the newer runtime.

Effects are made explicit: a handler step returns the new state, the
reply payload it sent (if any), the gossip sends it spawned, and the
error it returned to the runtime; RPC emission order is an event list;
stdin line handling is a function from the decode results of one line
to the outcome of the spawned task.
-/

namespace GossipGlomers

/-- Maelstrom error codes, the closed enumeration of error.rs
MaelstromErrorType. -/
inductive MaelstromErrorType
  | timeout
  | nodeNotFound
  | notSupported
  | temporarilyUnavailable
  | malformedRequest
  | crash
  | abort
  | keyDoesNotExist
  | keyAlreadyExists
  | preconditionFailed
  | txnConflict
deriving DecidableEq, Repr

/-- The crate-level error the newer runtime's helpers return
(node.rs, seq_kv_client.rs): parse failures, RPC timeout, an error
payload from the remote peer, or an unexpected response shape. -/
inductive GlomerError
  | parse (text : String)
  | timeout
  | maelstrom (code : MaelstromErrorType) (text : String)
  | unsupported (text : String)
deriving DecidableEq, Repr

/-- error.rs From GlomerError for MaelstromError: a timeout io error
becomes timeout, everything else (parse failures included) becomes
crash. -/
def GlomerError.toMaelstrom : GlomerError → MaelstromErrorType
  | .maelstrom code _ => code
  | _ => .crash

/-- node.rs node_id: the string n followed by the decimal id. -/
def node_id (id : Nat) : String := "n" ++ toString id

/-- Rust u32 from_str over a list of characters: an optional leading
plus sign, then one or more ASCII digits, and the value must fit in
32 bits. -/
def parseU32Chars (cs : List Char) : Option Nat :=
  let ds := match cs with
    | '+' :: rest => rest
    | _ => cs
  if ds.isEmpty then none
  else if ds.all (fun c => decide ('0' ≤ c) && decide (c ≤ '9')) then
    let v := ds.foldl (fun a c => a * 10 + (c.toNat - 48)) 0
    if v < 2 ^ 32 then some v else none
  else none

/-- node.rs parse_node_id: strip a leading n, then parse the rest as
u32; any other shape is a parse error. -/
def parse_node_id (s : String) : Except GlomerError Nat :=
  match s.data with
  | 'n' :: rest =>
    match parseU32Chars rest with
    | some v => .ok v
    | none => .error (.parse "Invalid node id")
  | _ => .error (.parse "Invalid node id")

/-! ## The newer runtime: src/node.rs with src/message.rs -/

/-- Message body as the node.rs runtime constructs it: fire_and_forget
takes msg_id as an Option and reply threads the source body's msg_id,
itself optional, straight into in_reply_to. -/
structure Body (P : Type) where
  msg_id : Option Nat
  in_reply_to : Option Nat
  payload : P
deriving DecidableEq, Repr

/-- The wire envelope; handler code in this generation addresses peers
by the string form of the node id. -/
structure MaelstromMessage (P : Type) where
  src : String
  dest : String
  body : Body P
deriving DecidableEq, Repr

/-- node.rs Node: own id and the monotonically increasing message id
counter; the response_map correlation table is modelled where it is
used (send_rpc event order, run loop routing). -/
structure Node where
  id : Nat
  next_msg_id : Nat
deriving DecidableEq, Repr

/-- node.rs Node::fire_and_forget: builds the envelope with src set to
our own id string and prints it; exactly one message per call. -/
def Node.fire_and_forget (n : Node) (msg_id in_reply_to : Option Nat)
    (dest : String) (payload : P) : MaelstromMessage P :=
  ⟨node_id n.id, dest, ⟨msg_id, in_reply_to, payload⟩⟩

/-- node.rs Node::reply: one fire_and_forget with msg_id None,
in_reply_to the source body's msg_id and dest the source's src; the
list is the messages the call emits. -/
def Node.reply (n : Node) (source : MaelstromMessage P) (payload : R) :
    List (MaelstromMessage R) :=
  [n.fire_and_forget none source.body.msg_id source.src payload]

/-- node.rs Node::send: one fire_and_forget with neither msg_id nor
in_reply_to. -/
def Node.send (n : Node) (dest : String) (payload : P) :
    List (MaelstromMessage P) :=
  [n.fire_and_forget none none dest payload]

/-- The observable steps send_rpc takes on the shared state before it
awaits: emitting the request envelope on stdout, and installing the
oneshot sender into the response_map correlation table. -/
inductive RpcEvent
  | emit (msg_id : Nat)
  | install (msg_id : Nat)
deriving DecidableEq, Repr

/-- node.rs Node::send_rpc up to its first await, in program order:
fetch_add allocates msg_id, fire_and_forget prints the request (emit),
then the oneshot channel is created and the sender inserted into
response_map under msg_id (install). -/
def Node.send_rpc_events (n : Node) : List RpcEvent × Node :=
  let msg_id := n.next_msg_id
  ([RpcEvent.emit msg_id, RpcEvent.install msg_id],
    { n with next_msg_id := n.next_msg_id + 1 })

/-- What serde yields for one raw stdin line in node.rs Node::run:
whether from_str::<Value> succeeds, whether a body field is present,
the body's in_reply_to, the src and msg_id fields as raw JSON would
show them (recoverable sender information), and the typed decode of
the whole envelope against the handler's payload (None when that
decode fails, for instance on an unknown type tag). -/
structure InboundLine (P : Type) where
  validJson : Bool
  hasBody : Bool
  in_reply_to : Option Nat
  rawSrc : Option String
  rawMsgId : Option Nat
  request : Option (MaelstromMessage P)
deriving Repr

/-- A line fails to decode when it is not JSON, has no body, or is a
fresh request whose typed decode fails. -/
def InboundLine.failsToDecode (l : InboundLine P) : Prop :=
  l.validJson = false ∨ l.hasBody = false ∨
    (l.in_reply_to = none ∧ l.request = none)

/-- Outcome of the task node.rs Node::run spawns for one line. -/
inductive LineOutcome (P : Type)
  | taskPanic
  | route (in_reply_to : Nat) (delivered : Bool)
  | handled
  | errorReply (dest : String) (in_reply_to : Option Nat)
      (code : MaelstromErrorType)
  | errorReplyThenPanic (dest : String) (in_reply_to : Option Nat)
      (code : MaelstromErrorType)
deriving DecidableEq, Repr

/-- node.rs Node::run, the body of the task spawned per line:
from_str::<Value>(line).unwrap() and .get of body .unwrap() panic the
task on malformed input; a line with in_reply_to is routed to the
response_map slot if one exists; otherwise
from_str::<MaelstromMessage<P>>(line).unwrap() panics when the typed
decode fails, and a decoded request runs the handler, whose error (if
any) is sent back to the request's src with in_reply_to set to the
request's msg_id, with a follow-up panic on crash or abort codes.
slots is the set of response_map keys; handler gives the handler's
result on the decoded message. -/
def processLine (handler : MaelstromMessage P → Option MaelstromErrorType)
    (slots : List Nat) (l : InboundLine P) : LineOutcome P :=
  if l.validJson = false then .taskPanic
  else if l.hasBody = false then .taskPanic
  else match l.in_reply_to with
  | some k => .route k (slots.contains k)
  | none =>
    match l.request with
    | none => .taskPanic
    | some m =>
      match handler m with
      | none => .handled
      | some code =>
        if code = .crash ∨ code = .abort then
          .errorReplyThenPanic m.src m.body.msg_id code
        else
          .errorReply m.src m.body.msg_id code

/-! ## The older runtime: src/lib.rs -/

/-- lib.rs NodeKind: the node and client partitions of identifiers. -/
inductive NodeKind
  | node
  | client
deriving DecidableEq, Repr

/-- lib.rs NodeId: kind plus 32-bit id, structural equality and
order. -/
structure NodeId where
  kind : NodeKind
  id : Nat
deriving DecidableEq, Repr

/-- lib.rs NodeId::node. -/
def NodeId.mkNode (id : Nat) : NodeId := ⟨NodeKind.node, id⟩

/-- lib.rs NodeId::client. -/
def NodeId.mkClient (id : Nat) : NodeId := ⟨NodeKind.client, id⟩

/-- lib.rs Body: msg_id is always present, assigned by send_impl. -/
structure LBody (P : Type) where
  msg_id : Nat
  in_reply_to : Option Nat
  payload : P
deriving DecidableEq, Repr

/-- lib.rs MaelstromMessage with typed NodeId endpoints. -/
structure LMessage (P : Type) where
  src : NodeId
  dest : NodeId
  body : LBody P
deriving DecidableEq, Repr

/-- lib.rs Node: identity, peers and the message id counter. -/
structure LNode where
  id : NodeId
  network_ids : List NodeId
  next_msg_id : Nat
deriving DecidableEq, Repr

/-- lib.rs Node::send_impl: fetch_add allocates msg_id, the envelope
with src = self.id is serialized and printed, and the msg_id is
returned; exactly one message per call. -/
def LNode.send_impl (n : LNode) (in_reply_to : Option Nat) (dest : NodeId)
    (payload : P) : LMessage P × Nat × LNode :=
  let msg_id := n.next_msg_id
  (⟨n.id, dest, ⟨msg_id, in_reply_to, payload⟩⟩, msg_id,
    { n with next_msg_id := n.next_msg_id + 1 })

/-- lib.rs Node::reply: one send_impl with in_reply_to = Some of the
source body's msg_id and dest = the source's src; fire and forget, no
correlation entry, nothing awaited. -/
def LNode.reply (n : LNode) (source : LMessage P) (payload : P) :
    List (LMessage P) × LNode :=
  let (m, _, n') := n.send_impl (some source.body.msg_id) source.src payload
  ([m], n')

/-- Outcome of one iteration of the lib.rs run accept loop, where the
typed decode happens on the loop itself before any task is spawned. -/
inductive MainLoopOutcome (P : Type)
  | processCrash
  | spawned (m : LMessage P)
deriving Repr

/-- lib.rs run: from_str::<MaelstromMessage<P>>(line).unwrap() on the
accept loop; a failed decode panics the main loop and so the process,
a decoded message is handed to a spawned task. -/
def libDecodeStep (request : Option (LMessage P)) : MainLoopOutcome P :=
  match request with
  | none => .processCrash
  | some m => .spawned m

/-! ## NodeId deserialization at byte level: src/message.rs -/

/-- Outcome of message.rs NodeId::deserialize, keeping Rust byte-slice
panics distinct from serde custom errors. -/
inductive DeResult
  | panicked
  | errored
  | okId (n : NodeId)
deriving DecidableEq, Repr

/-- A UTF-8 continuation byte, 0x80 to 0xBF. -/
def isContinuationByte (b : Nat) : Bool := 128 ≤ b && b ≤ 191

/-- Rust u32 from_str over the UTF-8 bytes of a string slice: an
optional leading plus (byte 43), then one or more ASCII digit bytes,
value within 32 bits. -/
def parseU32Bytes (bs : List Nat) : Option Nat :=
  let ds := match bs with
    | 43 :: rest => rest
    | _ => bs
  if ds.isEmpty then none
  else if ds.all (fun b => decide (48 ≤ b) && decide (b ≤ 57)) then
    let v := ds.foldl (fun a b => a * 10 + (b - 48)) 0
    if v < 2 ^ 32 then some v else none
  else none

/-- Whether the byte slices s[..1] and s[1..] panic: on an empty
string byte index 1 is out of bounds, and on a string whose first
character is multi-byte, byte index 1 is not a character boundary
(the byte at position 1 is a continuation byte). -/
def sliceAtOnePanics : List Nat → Bool
  | [] => true
  | [_] => false
  | _ :: b1 :: _ => isContinuationByte b1

/-- message.rs NodeId::deserialize over the UTF-8 bytes of the decoded
JSON string: take the one-byte slice s[..1] as prefix (panicking as
sliceAtOnePanics says), parse s[1..] as u32 first, erroring on
failure, then match the prefix byte against c (99) and n (110),
erroring on anything else. -/
def deserializeNodeId (bytes : List Nat) : DeResult :=
  if sliceAtOnePanics bytes then .panicked
  else match bytes with
  | [] => .panicked
  | b0 :: rest =>
    match parseU32Bytes rest with
    | none => .errored
    | some v =>
      if b0 = 99 then .okId (NodeId.mkClient v)
      else if b0 = 110 then .okId (NodeId.mkNode v)
      else .errored

/-! ## Broadcast workload: src/bin/broadcast.rs -/

namespace Broadcast

/-- broadcast.rs RequestPayload: client requests plus the gossip
propagation message, which carries a single value. -/
inductive RequestPayload
  | broadcast (message : Nat)
  | read
  | topology (topology : List (String × List String))
  | gossip (message : Nat)
deriving DecidableEq, Repr

/-- broadcast.rs ResponsePayload: the replies the handler can send.
GossipOk carries no fields; only ReadOk carries a messages list. -/
inductive ResponsePayload
  | broadcastOk
  | readOk (messages : List Nat)
  | topologyOk
  | gossipOk
deriving DecidableEq, Repr

/-- The messages field a response payload carries on the wire: of the
four variants only ReadOk has one. -/
def ResponsePayload.messagesField : ResponsePayload → Option (List Nat)
  | .readOk ms => some ms
  | _ => none

/-- broadcast.rs BroadcastHandler state: the node handle's own id, the
seen_messages BTreeSet, and the neighbors OnceLock (None while the
lock is unset). -/
structure BroadcastState where
  nodeId : Nat
  seen_messages : Finset Nat
  neighbors : Option (List Nat)
deriving DecidableEq

/-- One handler step's observable effects: the state afterwards, the
reply payload sent via node.reply (if the arm reached its reply), the
gossip sends spawned as (target neighbor, message) pairs, and the
error the handler returned to the runtime (if any). -/
structure HandleResult where
  state : BroadcastState
  reply : Option ResponsePayload
  gossips : List (Nat × Nat)
  err : Option MaelstromErrorType
deriving DecidableEq

/-- broadcast.rs BroadcastHandler::gossip: precondition_failed when the
neighbors OnceLock is unset; otherwise one spawned gossip task per
neighbor whose id differs from the source the value arrived from
(src.map_or(true, ..) keeps every neighbor when there is no source). -/
def gossipTargets (s : BroadcastState) (src : Option Nat) :
    Except MaelstromErrorType (List Nat) :=
  match s.neighbors with
  | none => .error .preconditionFailed
  | some ns =>
    .ok (ns.filter fun id =>
      match src with
      | none => true
      | some sr => decide (id ≠ sr))

/-- broadcast.rs Handler::handle for BroadcastHandler, one request.
Broadcast: insert into seen_messages, gossip to all neighbors (an
error here propagates before the reply), then reply BroadcastOk.
Gossip: insert; if newly inserted, parse the sender id and gossip to
the other neighbors (errors propagate before the reply), then reply
GossipOk. Read: reply ReadOk with the ascending contents of
seen_messages. Topology: look up our own entry (node_not_found when
absent), parse each neighbor id, then set the OnceLock, failing with
precondition_failed when it was already set, and reply TopologyOk. -/
def handle (s : BroadcastState) (msg : MaelstromMessage RequestPayload) :
    HandleResult :=
  match msg.body.payload with
  | .broadcast message =>
    let s' := { s with seen_messages := insert message s.seen_messages }
    match gossipTargets s' none with
    | .error e => ⟨s', none, [], some e⟩
    | .ok ts => ⟨s', some .broadcastOk, ts.map fun t => (t, message), none⟩
  | .gossip message =>
    let s' := { s with seen_messages := insert message s.seen_messages }
    if message ∈ s.seen_messages then
      ⟨s', some .gossipOk, [], none⟩
    else
      match parse_node_id msg.src with
      | .error e => ⟨s', none, [], some e.toMaelstrom⟩
      | .ok srcId =>
        match gossipTargets s' (some srcId) with
        | .error e => ⟨s', none, [], some e⟩
        | .ok ts => ⟨s', some .gossipOk, ts.map fun t => (t, message), none⟩
  | .read =>
    ⟨s, some (.readOk (s.seen_messages.sort (· ≤ ·))), [], none⟩
  | .topology topo =>
    match topo.lookup (node_id s.nodeId) with
    | none => ⟨s, none, [], some .nodeNotFound⟩
    | some nstrs =>
      match nstrs.mapM parse_node_id with
      | .error e => ⟨s, none, [], some e.toMaelstrom⟩
      | .ok ns =>
        match s.neighbors with
        | some _ => ⟨s, none, [], some .preconditionFailed⟩
        | none => ⟨{ s with neighbors := some ns }, some .topologyOk, [], none⟩

end Broadcast

/-! ## Counter workload: src/bin/counter.rs with src/seq_kv_client.rs -/

namespace Counter

/-- counter.rs RequestPayload. -/
inductive RequestPayload
  | add (delta : Int)
  | read
deriving DecidableEq, Repr

/-- counter.rs ResponsePayload. -/
inductive ResponsePayload
  | addOk
  | readOk (value : Int)
deriving DecidableEq, Repr

/-- The request payloads seq_kv_client.rs sends to the seq-kv service:
read, write, and cas with from, to and create_if_not_exists. Each
client method issues exactly one RPC carrying one of these. -/
inductive KvOp
  | read (key : String)
  | write (key : String) (value : String)
  | cas (key : String) (fromVal : String) (toVal : String)
      (createIfNotExists : Bool)
deriving DecidableEq, Repr

/-- Whether an operation is a compare_and_swap request. -/
def KvOp.isCas : KvOp → Bool
  | .cas _ _ _ _ => true
  | _ => false

/-- seq_kv_client.rs compare_and_swap: the single RPC payload the
method sends (its result is then matched for cas_ok,
precondition_failed and key_does_not_exist). -/
def compare_and_swap_request (key fromVal toVal : String)
    (createIfNotExists : Bool) : KvOp :=
  .cas key fromVal toVal createIfNotExists

/-- counter.rs main: the bucket key is the node's own id string
n followed by the id, one key per node. -/
def counterBucket (id : Nat) : String := node_id id

/-- Rust unwrap_or(0) on the read_int result. -/
def unwrapOr0 : Except GlomerError Int → Int
  | .ok v => v
  | .error _ => 0

/-- counter.rs Handler::handle, Add arm: one read_int RPC on the
per-node bucket whose failure of any kind is replaced by 0
(unwrap_or), then one unconditional write RPC of current + delta to
the same bucket, then reply AddOk; a write error propagates as the
handler's error instead of the reply. readRes and writeRes stand for
the seq-kv responses to the two RPCs; the first component is the
ordered list of KV requests the handler issues. -/
def counterAdd (bucket : String) (delta : Int)
    (readRes : Except GlomerError Int)
    (writeRes : Option MaelstromErrorType) :
    List KvOp × Option ResponsePayload × Option MaelstromErrorType :=
  let current := unwrapOr0 readRes
  let ops := [KvOp.read bucket, KvOp.write bucket (toString (current + delta))]
  match writeRes with
  | none => (ops, some .addOk, none)
  | some e => (ops, none, some e)

end Counter

/-! ## Theorems -/

/-- C1 counterexample: at the concrete request add with delta 1 on
node 0, with the KV read returning 5, the handler issues a read of
the per-node bucket n0 followed by a plain write of 6 to n0; the
operation list contains no compare_and_swap, and the bucket key is
not the fixed key counter. This refutes the claimed read-then-CAS
retry loop on a fixed counter key. -/
theorem counter_add_no_cas_at_input :
    (Counter.counterAdd (Counter.counterBucket 0) 1 (.ok 5) none).1 =
      [Counter.KvOp.read "n0", Counter.KvOp.write "n0" "6"] ∧
    ((Counter.counterAdd (Counter.counterBucket 0) 1 (.ok 5) none).1.any
      Counter.KvOp.isCas) = false ∧
    Counter.counterBucket 0 ≠ "counter" := by
  refine ⟨rfl, rfl, ?_⟩
  decide

/-- C1 amended: for every add with delta, the counter handler issues
exactly one read_int on the per-node bucket (any error replaced by 0)
followed by one unconditional write of current + delta to the same
bucket, never a compare_and_swap and never a retry; it replies add_ok
exactly when the write succeeds and otherwise propagates the write
error; the bucket key is the node's own id string n followed by its
id, not a single fixed key. -/
theorem counter_add_blind_write (bucket : String) (delta : Int)
    (readRes : Except GossipGlomers.GlomerError Int)
    (writeRes : Option MaelstromErrorType) :
    (Counter.counterAdd bucket delta readRes writeRes).1 =
      [Counter.KvOp.read bucket,
        Counter.KvOp.write bucket (toString (Counter.unwrapOr0 readRes + delta))] ∧
    ((Counter.counterAdd bucket delta readRes writeRes).1.any
      Counter.KvOp.isCas) = false ∧
    (writeRes = none →
      (Counter.counterAdd bucket delta readRes writeRes).2 =
        (some .addOk, none)) ∧
    (∀ e, writeRes = some e →
      (Counter.counterAdd bucket delta readRes writeRes).2 = (none, some e)) ∧
    (∀ id : Nat, Counter.counterBucket id = "n" ++ toString id) := by
  cases writeRes <;>
    simp [Counter.counterAdd, Counter.KvOp.isCas, Counter.counterBucket,
      node_id]

/-- C2 counterexample: with no topology installed, a broadcast of 42
inserts 42 into seen_messages but the handler returns
precondition_failed before reaching its reply, so no broadcast_ok is
sent; the runtime turns the error into an error reply. This refutes
the claim that a broadcast before topology is not treated as an
error. -/
theorem broadcast_before_topology_errors :
    Broadcast.handle ⟨0, ∅, none⟩ ⟨"c1", "n0", ⟨some 5, none, .broadcast 42⟩⟩ =
      ⟨⟨0, {42}, none⟩, none, [], some .preconditionFailed⟩ ∧
    (42 : Nat) ∈ (Broadcast.handle ⟨0, ∅, none⟩
      ⟨"c1", "n0", ⟨some 5, none, .broadcast 42⟩⟩).state.seen_messages := by
  constructor <;> decide

/-- C2 amended: a broadcast received before any topology message still
inserts its value into seen_messages and attempts no gossip, but the
handler then fails with precondition_failed before sending
broadcast_ok, so the requester gets an error reply instead of an
acknowledgment. -/
theorem broadcast_before_topology_fails (s : Broadcast.BroadcastState)
    (src dest : String) (b irt : Option Nat) (m : Nat)
    (h : s.neighbors = none) :
    Broadcast.handle s ⟨src, dest, ⟨b, irt, .broadcast m⟩⟩ =
      ⟨{ s with seen_messages := insert m s.seen_messages }, none, [],
        some .preconditionFailed⟩ := by
  simp [Broadcast.handle, Broadcast.gossipTargets, h]

/-- C2 witness: the amended statement at the concrete empty state. -/
theorem broadcast_before_topology_fails_witness :
    Broadcast.handle ⟨0, ∅, none⟩ ⟨"c1", "n0", ⟨some 5, none, .broadcast 7⟩⟩ =
      ⟨⟨0, {7}, none⟩, none, [], some .preconditionFailed⟩ :=
  broadcast_before_topology_fails ⟨0, ∅, none⟩ "c1" "n0" (some 5) none 7 rfl

/-- C3 counterexample: in the node.rs runtime, the reply to a concrete
message carries msg_id None, not a freshly allocated message id: the
emitted reply equals the envelope with msg_id None, and its msg_id is
not Some of anything. -/
theorem reply_msg_id_not_allocated :
    Node.reply ⟨0, 7⟩ (⟨"c1", "n0", ⟨some 3, none, 42⟩⟩ : MaelstromMessage Nat)
        99 = [⟨"n0", "c1", ⟨none, some 3, 99⟩⟩] ∧
    ((Node.reply ⟨0, 7⟩
        (⟨"c1", "n0", ⟨some 3, none, 42⟩⟩ : MaelstromMessage Nat) 99).map
      fun r => r.body.msg_id.isSome) = [false] := by
  constructor <;> rfl

/-- C3 amended: reply emits exactly one fire-and-forget message whose
dest is the source's src and whose in_reply_to is the source body's
msg_id, in both runtimes; the lib.rs reply allocates a fresh msg_id
from the counter and increments it, while the node.rs reply sends the
message with msg_id None. -/
theorem reply_shape :
    (∀ (P R : Type) (n : Node) (m : MaelstromMessage P) (p : R),
      (Node.reply n m p).length = 1 ∧
      ∀ r ∈ Node.reply n m p,
        r.dest = m.src ∧ r.body.in_reply_to = m.body.msg_id ∧
          r.body.msg_id = none) ∧
    (∀ (P : Type) (n : LNode) (m : LMessage P) (p : P),
      (LNode.reply n m p).1.length = 1 ∧
      (LNode.reply n m p).2.next_msg_id = n.next_msg_id + 1 ∧
      ∀ r ∈ (LNode.reply n m p).1,
        r.dest = m.src ∧ r.body.in_reply_to = some m.body.msg_id ∧
          r.body.msg_id = n.next_msg_id) := by
  constructor
  · intro P R n m p
    refine ⟨rfl, ?_⟩
    intro r hr
    simp only [Node.reply, Node.fire_and_forget, List.mem_singleton] at hr
    subst hr
    exact ⟨rfl, rfl, rfl⟩
  · intro P n m p
    refine ⟨rfl, rfl, ?_⟩
    intro r hr
    simp only [LNode.reply, LNode.send_impl, List.mem_singleton] at hr
    subst hr
    exact ⟨rfl, rfl, rfl⟩

/-- C4 counterexample: at a concrete gossip of 7 from n1, the handler
replies GossipOk, a payload that carries no messages field at all, so
nothing echoes the received values. This refutes the claimed
gossip_ack reply echoing the received set. -/
theorem gossip_reply_has_no_messages :
    (Broadcast.handle ⟨0, ∅, some []⟩
      ⟨"n1", "n0", ⟨some 2, none, .gossip 7⟩⟩).reply = some .gossipOk ∧
    Broadcast.ResponsePayload.messagesField .gossipOk = none := by
  constructor <;> rfl

/-- C4 amended: whenever the gossip arm replies at all it replies
GossipOk, whose payload has no messages field; when the sender id
fails to parse or the neighbor set is not installed on a fresh value,
the handler errors and no acknowledgment is sent. -/
theorem gossip_ack_is_gossip_ok (s : Broadcast.BroadcastState)
    (src dest : String) (b irt : Option Nat) (m : Nat) :
    (((Broadcast.handle s ⟨src, dest, ⟨b, irt, .gossip m⟩⟩).reply =
        some .gossipOk ∧
      (Broadcast.handle s ⟨src, dest, ⟨b, irt, .gossip m⟩⟩).err = none) ∨
    ((Broadcast.handle s ⟨src, dest, ⟨b, irt, .gossip m⟩⟩).reply = none ∧
      (Broadcast.handle s ⟨src, dest, ⟨b, irt, .gossip m⟩⟩).err.isSome =
        true)) ∧
    Broadcast.ResponsePayload.messagesField .gossipOk = none := by
  refine ⟨?_, rfl⟩
  simp only [Broadcast.handle]
  by_cases hm : m ∈ s.seen_messages
  · simp [hm]
  · simp only [hm, if_neg, ite_false]
    cases hp : parse_node_id src with
    | error e => simp [hm, hp]
    | ok v =>
      cases hg : Broadcast.gossipTargets
          { s with seen_messages := insert m s.seen_messages } (some v) with
      | error e => simp [hm, hp, hg]
      | ok ts => simp [hm, hp, hg]

/-- C5 counterexample: a line that is valid JSON with a body and
recoverable src c1 and msg_id 5 but whose typed decode fails (for
instance an unknown type tag) makes the spawned task panic on unwrap;
the outcome is not a malformed-request error reply. -/
theorem unknown_tag_line_panics :
    processLine (P := Nat) (fun _ => none) []
        ⟨true, true, none, some "c1", some 5, none⟩ = .taskPanic ∧
    (LineOutcome.taskPanic : LineOutcome Nat) ≠
      .errorReply "c1" (some 5) .malformedRequest := by
  constructor <;> decide

/-- C5 amended: every inbound line that fails to decode makes the
node.rs per-line task panic on unwrap, with no malformed-request
error reported and no graceful log-and-drop even when the sender is
recoverable; in the lib.rs runtime the same unwrap sits on the accept
loop itself, so a failed decode crashes the process. -/
theorem failed_decode_panics :
    (∀ (P : Type) (handler : MaelstromMessage P → Option MaelstromErrorType)
      (slots : List Nat) (l : InboundLine P),
      l.failsToDecode → processLine handler slots l = .taskPanic) ∧
    (∀ P : Type, libDecodeStep (P := P) none = .processCrash) := by
  refine ⟨?_, fun P => rfl⟩
  intro P handler slots l h
  unfold processLine
  rcases h with h | h | ⟨h1, h2⟩
  · simp [h]
  · cases hv : l.validJson <;> simp [h]
  · cases hv : l.validJson
    · simp
    · cases hb : l.hasBody
      · simp
      · simp [h1, h2]

/-- C6: evaluating node.rs send_rpc at the concrete state with counter
0, the emitted event sequence is emit 0 then install 0: the request
envelope is printed before the delivery slot is inserted into the
correlation table, the reverse of the claimed order. -/
theorem send_rpc_emits_before_install :
    (Node.send_rpc_events ⟨0, 0⟩).1 = [RpcEvent.emit 0, RpcEvent.install 0] ∧
    (Node.send_rpc_events ⟨0, 0⟩).2.next_msg_id = 1 := by
  constructor <;> rfl

/-- C7 counterexample: with neighbors already installed as the single
node 1, a second topology request whose map lacks the node's own
entry fails with node_not_found, not precondition_failed (the lookup
at broadcast.rs line 146 runs before the OnceLock set). This refutes
the claim that every subsequent topology request fails with
precondition_failed. -/
theorem second_topology_node_not_found :
    Broadcast.handle ⟨0, ∅, some [1]⟩
        ⟨"c1", "n0", ⟨some 3, none, .topology [("n5", ["n1"])]⟩⟩ =
      ⟨⟨0, ∅, some [1]⟩, none, [], some .nodeNotFound⟩ ∧
    MaelstromErrorType.nodeNotFound ≠ MaelstromErrorType.preconditionFailed := by
  constructor <;> decide

/-- C7 amended: the neighbors list is installed exactly once, by the
first topology message whose map contains the node's own entry with
parseable neighbor ids (replying topology_ok). A subsequent topology
request of that well-formed shape fails with precondition_failed; one
whose map lacks the node's entry fails with node_not_found and one
whose neighbor ids do not parse fails with the parse error's code,
because lookup and parsing run before the OnceLock set. In every case
the previously installed neighbors are left unchanged. -/
theorem topology_set_once (s : Broadcast.BroadcastState) (src dest : String)
    (b irt : Option Nat) (t : List (String × List String)) :
    (∀ ns nstrs ns2, s.neighbors = some ns →
      t.lookup (node_id s.nodeId) = some nstrs →
      nstrs.mapM parse_node_id = .ok ns2 →
      Broadcast.handle s ⟨src, dest, ⟨b, irt, .topology t⟩⟩ =
        ⟨s, none, [], some .preconditionFailed⟩) ∧
    (∀ nstrs ns, s.neighbors = none →
      t.lookup (node_id s.nodeId) = some nstrs →
      nstrs.mapM parse_node_id = .ok ns →
      Broadcast.handle s ⟨src, dest, ⟨b, irt, .topology t⟩⟩ =
        ⟨{ s with neighbors := some ns }, some .topologyOk, [], none⟩) ∧
    (∀ ns, s.neighbors = some ns →
      (Broadcast.handle s ⟨src, dest, ⟨b, irt, .topology t⟩⟩).state = s) ∧
    (t.lookup (node_id s.nodeId) = none →
      Broadcast.handle s ⟨src, dest, ⟨b, irt, .topology t⟩⟩ =
        ⟨s, none, [], some .nodeNotFound⟩) ∧
    (∀ nstrs e, t.lookup (node_id s.nodeId) = some nstrs →
      nstrs.mapM parse_node_id = .error e →
      Broadcast.handle s ⟨src, dest, ⟨b, irt, .topology t⟩⟩ =
        ⟨s, none, [], some e.toMaelstrom⟩) := by
  refine ⟨?_, ?_, ?_, ?_, ?_⟩
  · intro ns nstrs ns2 hnb hlook hmap
    simp only [Broadcast.handle, hlook, hmap, hnb]
  · intro nstrs ns hnb hlook hmap
    simp only [Broadcast.handle, hlook, hmap, hnb]
  · intro ns hnb
    simp only [Broadcast.handle]
    cases hlook : t.lookup (node_id s.nodeId) with
    | none => simp only [hlook]
    | some nstrs =>
      cases hmap : nstrs.mapM parse_node_id with
      | error e => simp only [hlook, hmap]
      | ok ns2 => simp only [hlook, hmap, hnb]
  · intro hlook
    simp only [Broadcast.handle, hlook]
  · intro nstrs e hlook hmap
    simp only [Broadcast.handle, hlook, hmap]

/-- C7 witness: with neighbors already installed as the single node 1,
a well-formed second topology fails with precondition_failed and
leaves the state unchanged. -/
theorem topology_set_once_witness :
    Broadcast.handle ⟨0, ∅, some [1]⟩
        ⟨"c1", "n0", ⟨some 9, none, .topology [("n0", ["n2"])]⟩⟩ =
      ⟨⟨0, ∅, some [1]⟩, none, [], some .preconditionFailed⟩ :=
  (topology_set_once ⟨0, ∅, some [1]⟩ "c1" "n0" (some 9) none
    [("n0", ["n2"])]).1 [1] ["n2"] [2] rfl rfl rfl

/-- C8: every gossip send spawned while handling a gossip message
whose sender id parses targets a neighbor different from that sender;
the value is never gossiped straight back to where it came from. -/
theorem gossip_never_targets_sender (s : Broadcast.BroadcastState)
    (src dest : String) (b irt : Option Nat) (m srcId : Nat)
    (hsrc : parse_node_id src = .ok srcId) :
    ((Broadcast.handle s ⟨src, dest, ⟨b, irt, .gossip m⟩⟩).gossips.all
      fun p => decide (p.1 ≠ srcId)) = true := by
  simp only [Broadcast.handle]
  by_cases hm : m ∈ s.seen_messages
  · simp [hm]
  · simp only [hm, if_neg, ite_false, hsrc]
    cases hnb : s.neighbors with
    | none => simp [Broadcast.gossipTargets, hnb, hm]
    | some ns =>
      simp only [Broadcast.gossipTargets, hnb, hm, ite_false]
      simp only [List.all_eq_true, List.mem_map, List.mem_filter]
      rintro p ⟨a, ⟨ha, hane⟩, rfl⟩
      simpa using hane

/-- C8 witness: node 0 with neighbors 1 and 2 handling gossip of 7
from n1 spawns gossip only to neighbors other than 1. -/
theorem gossip_never_targets_sender_witness :
    ((Broadcast.handle ⟨0, ∅, some [1, 2]⟩
        ⟨"n1", "n0", ⟨some 2, none, .gossip 7⟩⟩).gossips.all
      fun p => decide (p.1 ≠ 1)) = true :=
  gossip_never_targets_sender ⟨0, ∅, some [1, 2]⟩ "n1" "n0" (some 2) none 7 1
    rfl

/-- C9: every handler operation of the broadcast workload only ever
inserts into seen_messages: any value seen before a step is still
seen after it, so successive reads return non-decreasing sets. -/
theorem seen_messages_monotone (s : Broadcast.BroadcastState)
    (msg : MaelstromMessage Broadcast.RequestPayload) (x : Nat)
    (hx : x ∈ s.seen_messages) :
    x ∈ (Broadcast.handle s msg).state.seen_messages := by
  rcases msg with ⟨src, dest, ⟨b, irt, payload⟩⟩
  cases payload <;> simp only [Broadcast.handle] <;>
    (repeat' split) <;> simp_all [Finset.mem_insert]

/-- C9 witness: the value 42 already seen survives a read step. -/
theorem seen_messages_monotone_witness :
    (42 : Nat) ∈ (Broadcast.handle ⟨0, {42}, none⟩
      ⟨"c1", "n0", ⟨some 1, none, .read⟩⟩).state.seen_messages :=
  seen_messages_monotone ⟨0, {42}, none⟩
    ⟨"c1", "n0", ⟨some 1, none, .read⟩⟩ 42 (by decide)

/-- C10 counterexample: the two-byte character e-acute followed by the
digit 5 is a non-empty input whose prefix is neither n nor c, yet
deserialization panics on the byte-slice char boundary instead of
returning an error value. -/
theorem multibyte_first_char_panics :
    deserializeNodeId [195, 169, 53] = .panicked ∧
    DeResult.panicked ≠ DeResult.errored := by
  constructor <;> decide

/-- C10 amended: NodeId deserialization panics on the empty string
(byte index out of range) and on any non-empty string whose first
character is multi-byte (byte 1 not a char boundary); every other
input whose prefix byte is not n or c or whose remainder does not
parse as an unsigned 32-bit decimal is rejected with an error
value. -/
theorem deserialize_panics_and_errors :
    deserializeNodeId [] = .panicked ∧
    (∀ b0 b1 rest, isContinuationByte b1 = true →
      deserializeNodeId (b0 :: b1 :: rest) = .panicked) ∧
    (∀ b0 rest, sliceAtOnePanics (b0 :: rest) = false →
      ((b0 ≠ 99 ∧ b0 ≠ 110) ∨ parseU32Bytes rest = none) →
      deserializeNodeId (b0 :: rest) = .errored) := by
  refine ⟨rfl, ?_, ?_⟩
  · intro b0 b1 rest h
    simp [deserializeNodeId, sliceAtOnePanics, h]
  · intro b0 rest hs hbad
    cases hp : parseU32Bytes rest with
    | none => simp [deserializeNodeId, hs, hp]
    | some v =>
      rcases hbad with ⟨h99, h110⟩ | hbad2
      · simp [deserializeNodeId, hs, hp, h99, h110]
      · rw [hp] at hbad2
        cases hbad2

end GossipGlomers
